import Mathlib

/-!
# Verification of the github-codex-bot webhook pipeline

Shallow embedding of `src/bot.py` — the webhook handler of the
`Aleqsd/github-codex-bot` repository — together with proofs of the
specification's claims about it.

Modelling conventions:

* JSON values produced by `json.loads` are modelled by the inductive `Json`
  (Python `None`/`True`/`False`/`int`/`str`/`list`/`dict`).
* Python's `dict.get(key, default)` is `dictGet`: on a non-dict receiver it
  raises `AttributeError`, modelled as `Except.error`.
* Python truthiness is `pyTruthy`, Python `str(...)` (as used by f-strings)
  is `pyStr`.
* The HMAC-SHA256 hex digest of the raw request body under the shared webhook
  secret (computed in the source by the `hmac`/`hashlib` standard library,
  an external collaborator) is abstracted as a `String` parameter `digest`;
  the header matches the body exactly when it equals `"sha256=" ++ digest`.
  `hmac.compare_digest` raising `TypeError` on non-ASCII `str` input is
  modelled (`Except.error`), as is `json.loads` raising `UnicodeDecodeError`
  on a non-UTF-8 body (`ParseResult.unicodeError`), since both escape the
  handler uncaught.
* The OpenAI backend, the GitHub REST endpoint and transport-level behaviour
  of `requests` are external collaborators; they enter as function/value
  parameters, and the side effects the bot requests of them are recorded in
  explicit effect lists.
-/

set_option autoImplicit false

/-- A JSON value as decoded by Python's `json.loads`: `null`/`None`,
booleans, numbers, strings, arrays and objects (dicts). -/
inductive Json where
  | null
  | bool (b : Bool)
  | num (n : Int)
  | str (s : String)
  | arr (elems : List Json)
  | obj (fields : List (String × Json))

/-- Python's `receiver.get(key, default)`: returns the value bound to `key`
(or `default` when the key is missing) when the receiver is a dict, and
raises `AttributeError` (modelled as `Except.error ()`) otherwise. -/
def dictGet (j : Json) (key : String) (default : Json) : Except Unit Json :=
  match j with
  | .obj fields => .ok ((fields.lookup key).getD default)
  | _ => .error ()

/-- Python truthiness of a decoded JSON value (`if x:`). -/
def pyTruthy : Json → Bool
  | .null => false
  | .bool b => b
  | .num n => n != 0
  | .str s => s != ""
  | .arr elems => !elems.isEmpty
  | .obj fields => !fields.isEmpty

mutual
/-- Python `repr` of a decoded JSON value, as used for elements nested inside
containers. String-escape details of Python's `repr` are not modelled (no
claim depends on them); the branch structure mirrors CPython's rendering. -/
def pyRepr : Json → String
  | .null => "None"
  | .bool true => "True"
  | .bool false => "False"
  | .num n => toString n
  | .str s => "'" ++ s ++ "'"
  | .arr elems => "[" ++ pyReprList elems ++ "]"
  | .obj fields => "\x7b" ++ pyReprFields fields ++ "\x7d"

/-- Comma-separated `repr` of a list's elements. -/
def pyReprList : List Json → String
  | [] => ""
  | [x] => pyRepr x
  | x :: xs => pyRepr x ++ ", " ++ pyReprList xs

/-- Comma-separated `repr` of a dict's entries. -/
def pyReprFields : List (String × Json) → String
  | [] => ""
  | [(k, v)] => "'" ++ k ++ "': " ++ pyRepr v
  | (k, v) :: fs => "'" ++ k ++ "': " ++ pyRepr v ++ ", " ++ pyReprFields fs
end

/-- Python `str(...)` of a decoded JSON value, as interpolated by f-strings:
strings are taken verbatim, scalars as their canonical text, containers via
`repr`. -/
def pyStr : Json → String
  | .str s => s
  | .arr elems => pyRepr (.arr elems)
  | .obj fields => pyRepr (.obj fields)
  | j => pyRepr j

/-- Python `==` between a decoded JSON value and a Python `str` constant:
equality holds only for an equal string, and is `False` (never an error)
across types. Used for `sender != WATCH_USER`. -/
def jsonEqString (j : Json) (s : String) : Bool :=
  match j with
  | .str t => t == s
  | _ => false

/-- Python's `header.split("=", 1)` restricted to what `_verify_signature`
needs: split at the first `=`, or `none` when there is no `=` (in which case
the two-variable unpacking in the source raises `ValueError`). -/
def splitOnFirstEq : List Char → Option (List Char × List Char)
  | [] => none
  | c :: cs =>
    if c = '=' then some ([], cs)
    else match splitOnFirstEq cs with
      | none => none
      | some (a, b) => some (c :: a, b)

/-- A character `hmac.compare_digest` accepts in a `str` argument: the
function raises `TypeError` ("comparing strings with non-ASCII characters is
not supported") when either string contains a code point above 127. -/
def isAsciiChar (c : Char) : Bool :=
  c.toNat < 128

/-- `_verify_signature` from `src/bot.py:190-200`. `digest` abstracts
`hmac.new(GITHUB_WEBHOOK_SECRET.encode("utf-8"), payload, hashlib.sha256).hexdigest()`,
the HMAC-SHA256 hex digest of the raw body under the shared secret (always
lowercase ASCII hex in every run of the program); `header` is the
`X-Hub-Signature-256` header (`none` when absent). The source returns `False`
for a falsy (absent or empty) header, catches the `ValueError` from unpacking
a separator-free header, rejects a non-`"sha256"` algorithm tag and finally
compares digests with `hmac.compare_digest`. That last call sits outside the
`try/except ValueError`: on `str` arguments `compare_digest` raises an
uncaught `TypeError` when either side contains non-ASCII characters
(`Except.error`), and otherwise returns plain equality (timing is outside
the model). -/
def verify_signature (digest : String) (header : Option String) :
    Except Unit Bool :=
  match header with
  | none => .ok false
  | some h =>
    if h == "" then .ok false
    else
      match splitOnFirstEq h.toList with
      | none => .ok false
      | some (algo, signature) =>
        if algo = "sha256".toList then
          if digest.toList.all isAsciiChar && signature.all isAsciiChar then
            .ok (signature == digest.toList)
          else .error ()
        else .ok false

/-! ## Retrying HTTP sender (`_send_with_retries`, `src/bot.py:66-85`) -/

/-- An HTTP response as seen from `requests`: status code and body text.
Only the fields the bot inspects are modelled. -/
structure HttpResponse where
  status_code : Nat
  text : String
  deriving DecidableEq, Repr

/-- `requests.Response.__bool__` / `Response.ok`: truthy exactly when
`raise_for_status()` would not raise, i.e. the status code is below 400. -/
def HttpResponse.ok (r : HttpResponse) : Bool :=
  r.status_code < 400

/-- Observable trace of one `_send_with_retries` run: the returned value
(`none` when every attempt raised and the loop fell through to `return None`),
the attempt numbers at which `request_factory()` was invoked, and the
durations of the `time.sleep` calls, in order. -/
structure RetryTrace (α : Type) where
  result : Option α
  calls : List Nat
  sleeps : List ℚ
  deriving Repr

/-- The `for attempt in range(1, HTTP_MAX_RETRIES + 1)` loop body of
`_send_with_retries`. `f a` is the outcome of `request_factory()` on attempt
`a`: `some r` when it returns response `r`, `none` when it raises
`requests.RequestException`. A returned response exits the loop immediately;
after a raise the loop sleeps `backoff * attempt` only when
`attempt < HTTP_MAX_RETRIES`, then continues. -/
def sendLoop {α : Type} (backoff : ℚ) (maxAttempts : Nat) (f : Nat → Option α) :
    List Nat → RetryTrace α
  | [] => ⟨none, [], []⟩
  | a :: rest =>
    match f a with
    | some r => ⟨some r, [a], []⟩
    | none =>
      let t := sendLoop backoff maxAttempts f rest
      if a < maxAttempts then ⟨t.result, a :: t.calls, backoff * a :: t.sleeps⟩
      else ⟨t.result, a :: t.calls, t.sleeps⟩

/-- `_send_with_retries` from `src/bot.py:66-85`, instrumented with its call
and sleep trace. `maxAttempts` is `HTTP_MAX_RETRIES`, `backoff` is
`HTTP_RETRY_BACKOFF_SECONDS` (a `Float` in the source, modelled as `ℚ`). -/
def send_with_retries {α : Type} (maxAttempts : Nat) (backoff : ℚ)
    (f : Nat → Option α) : RetryTrace α :=
  sendLoop backoff maxAttempts f (List.range' 1 maxAttempts)

/-! ## Comment publisher and notification (`post_github_comment`,
`src/bot.py:115-137`) -/

/-- The outbound actions `post_github_comment` can request, in order: the
retried `POST .../issues/{number}/comments` call itself, and the
`notify_pushover(...)` invocation. -/
inductive PostAction where
  | commentRequest (issue_number : Json) (body : String)
  | notify (issue_title : Json) (issue_number : Json) (message : String)

/-- `post_github_comment` from `src/bot.py:115-137`, returning the list of
outbound actions it performs. `f` gives the transport outcome of each
attempted GitHub POST (consumed through `_send_with_retries`). The source
checks `if not response:` — which by `requests.Response.__bool__` is true
when the retries were exhausted (`None`) or the response is not `ok` — and
then `if response.status_code not in [200, 201]`; only past both checks does
it call `notify_pushover` with the fixed success message. -/
def post_github_comment (maxAttempts : Nat) (backoff : ℚ)
    (f : Nat → Option HttpResponse)
    (issue_number : Json) (issue_title : Json) (body : String) :
    List PostAction :=
  let attempt := [PostAction.commentRequest issue_number body]
  match (send_with_retries maxAttempts backoff f).result with
  | none => attempt
  | some response =>
    if !response.ok then attempt
    else if response.status_code ∉ [200, 201] then attempt
    else
      attempt ++ [PostAction.notify issue_title issue_number
        ("✅ Comment posted to issue #" ++ pyStr issue_number)]

/-! ## Prompt generator (`generate_codex_prompt`, `src/bot.py:140-184`) -/

/-- The fixed fallback returned when anything in the `try` block raises. -/
def codexFallback : String := "⚠️ Failed to generate Codex prompt."

/-- Python's `str.strip()` with no argument: drop leading and trailing
whitespace characters. -/
def pyStrip (s : String) : String :=
  String.mk (((s.data.dropWhile Char.isWhitespace).reverse.dropWhile
    Char.isWhitespace).reverse)

/-- `generate_codex_prompt` from `src/bot.py:140-184`. `clientAvailable`
models `openai_client` being non-`None`; `backend` is the black-box
`openai_client.responses.create(...).output_text` call on the given input
text, which either returns text (`Except.ok`) or raises (`Except.error`).
When the client is absent the source raises `RuntimeError` inside the same
`try`, so every failure path lands in the `except` clause, which returns the
fixed placeholder; on success the source returns `output_text.strip()`
(leading/trailing-whitespace trim). -/
def generate_codex_prompt (clientAvailable : Bool)
    (backend : String → Except Unit String) (issue_text : String) : String :=
  if !clientAvailable then codexFallback
  else
    match backend issue_text with
    | .error _ => codexFallback
    | .ok output_text => pyStrip output_text

/-! ## Webhook handler (`github_webhook`, `src/bot.py:203-245`) -/

/-- The fields `github_webhook` extracts from the decoded payload
(`src/bot.py:224-229`). Python's `None` and JSON `null` are both `Json.null`;
`comment` is `Json.null` when `payload.get("comment", {})` has no `"body"`
key. -/
structure ExtractedFields where
  sender : Json
  issue_number : Json
  issue_title : Json
  body : Json
  comment : Json

/-- The field extraction of `src/bot.py:224-229`:
`payload.get("sender", {}).get("login", "")`, `payload.get("issue", {})`
with `number`/`title`/`body` (defaults `None`/`""`/`""`), and
`payload.get("comment", {}).get("body")`. Any `.get` on a non-dict value
raises `AttributeError` (`Except.error`). -/
def extractFields (payload : Json) : Except Unit ExtractedFields := do
  let senderObj ← dictGet payload "sender" (.obj [])
  let sender ← dictGet senderObj "login" (.str "")
  let issue ← dictGet payload "issue" (.obj [])
  let issue_number ← dictGet issue "number" .null
  let issue_title ← dictGet issue "title" (.str "")
  let body ← dictGet issue "body" (.str "")
  let commentObj ← dictGet payload "comment" (.obj [])
  let comment ← dictGet commentObj "body" .null
  pure ⟨sender, issue_number, issue_title, body, comment⟩

/-- The outcome of `json.loads(raw_body)` (`src/bot.py:211-215`): a decoded
value; a `json.JSONDecodeError` (caught at `src/bot.py:213`, so the handler
answers 400); or a `UnicodeDecodeError` for a body that is not valid UTF-8 —
not a `JSONDecodeError` subclass, hence not caught by the `except` clause. -/
inductive ParseResult where
  | ok (payload : Json)
  | jsonError
  | unicodeError

/-- How one run of the `github_webhook` endpoint terminates: an
`HTTPException` with the given status and detail, a JSON `{"msg": ...}`
response, or an exception escaping the handler — the `TypeError` from
`hmac.compare_digest` on a non-ASCII signature segment, the
`UnicodeDecodeError` from `json.loads` on a non-UTF-8 body, or the
`AttributeError` a non-dict field access raises — which FastAPI turns into a
500. -/
inductive WebhookResult where
  | httpError (status : Nat) (detail : String)
  | response (msg : String)
  | pyError

/-- The calls `github_webhook` makes into the downstream components, in
order: `generate_codex_prompt(text)` and
`post_github_comment(issue_number, issue_title, comment_body)`. -/
inductive Effect where
  | genPrompt (text : Json)
  | postComment (issue_number : Json) (issue_title : Json) (body : String)

/-- The event types the handler does not ignore (`src/bot.py:221`). -/
def acceptedEvents : List String := ["issues", "issue_comment"]

/-- The banner prefixed to the generated prompt (`src/bot.py:242`). -/
def commentBanner (codex_prompt : String) : String :=
  "🤖 **Prompt ready for Codex:**\n\n```\n" ++ codex_prompt ++ "\n```"

/-- Text-source selection (`src/bot.py:237`):
`text = comment if comment else f"{issue_title}\n\n{body}"`. -/
def selectText (fields : ExtractedFields) : Json :=
  if pyTruthy fields.comment then fields.comment
  else .str (pyStr fields.issue_title ++ "\n\n" ++ pyStr fields.body)

/-- `github_webhook` from `src/bot.py:203-245`. Parameters stand for the
request and environment: `digest` is the HMAC-SHA256 hex digest of the raw
body under the webhook secret, `sigHeader` the `X-Hub-Signature-256` header,
`eventHeader` the `X-GitHub-Event` header (`request.headers.get` defaults it
to `"ping"`), `parsed` the outcome of `json.loads(raw_body)`, `watchUser` the
`WATCH_USER` configuration, and `gen` the result of `generate_codex_prompt`
on the selected text (the argument the handler passes is recorded in the
`genPrompt` effect). A `TypeError` escaping `_verify_signature` and a
`UnicodeDecodeError` escaping `json.loads` both leave the handler as
uncaught exceptions (`pyError`). The returned pair is the terminal state and
the ordered downstream calls. -/
def github_webhook (digest : String) (sigHeader : Option String)
    (eventHeader : Option String) (parsed : ParseResult)
    (watchUser : String) (gen : Json → String) : WebhookResult × List Effect :=
  match verify_signature digest sigHeader with
  | .error _ => (.pyError, [])
  | .ok verified =>
    if verified = false then
      (.httpError 401 "Invalid signature", [])
    else
    match parsed with
    | .unicodeError => (.pyError, [])
    | .jsonError => (.httpError 400 "Invalid JSON payload", [])
    | .ok payload =>
      let event := eventHeader.getD "ping"
      if event ∉ acceptedEvents then (.response "ignored", [])
      else
        match extractFields payload with
        | .error _ => (.pyError, [])
        | .ok fields =>
          if jsonEqString fields.sender watchUser = false then
            (.response "ignored", [])
          else
            let text := selectText fields
            let codex_prompt := gen text
            let comment_body := commentBanner codex_prompt
            (.response "processed",
              [.genPrompt text,
               .postComment fields.issue_number fields.issue_title comment_body])

/-! ## Payload fixtures and shape predicates used by the claims -/

/-- The `comment.body` value extracted from a payload that carries
`comment: {body: c}` when `c` is given and no `"comment"` key otherwise. -/
def commentField : Option String → Json
  | some c => .str c
  | none => .null

/-- A well-formed webhook payload of the shape GitHub sends: an `action`
value, `sender.login`, `issue.number`/`title`/`body`, and optionally
`comment.body`. -/
def mkPayload (action : Json) (login : String) (number : Json)
    (title body : String) (comment : Option String) : Json :=
  .obj
    ([("action", action),
      ("sender", .obj [("login", .str login)]),
      ("issue", .obj
        [("number", number), ("title", .str title), ("body", .str body)])] ++
      (match comment with
       | some c => [("comment", .obj [("body", .str c)])]
       | none => []))

/-- In a decoded JSON object with entries `fields`, the value at `key` is a
dict whenever the key is present, so a `.get` chained on it cannot raise. -/
def fieldIsDictWhenPresent (fields : List (String × Json)) (key : String) : Bool :=
  match fields.lookup key with
  | some (.obj _) => true
  | some _ => false
  | none => true

/-! ## Theorems: the signature verifier -/

theorem splitOnFirstEq_append (l r : List Char) (hl : '=' ∉ l) :
    splitOnFirstEq (l ++ '=' :: r) = some (l, r) := by
  induction l with
  | nil => simp [splitOnFirstEq]
  | cons c cs ih =>
    have hc : c ≠ '=' := fun h => hl (by simp [h])
    have hcs : '=' ∉ cs := fun h => hl (List.mem_cons_of_mem _ h)
    simp [splitOnFirstEq, hc, ih hcs]

theorem splitOnFirstEq_eq_some (l a b : List Char)
    (h : splitOnFirstEq l = some (a, b)) : l = a ++ '=' :: b := by
  induction l generalizing a b with
  | nil => simp [splitOnFirstEq] at h
  | cons c cs ih =>
    by_cases hc : c = '='
    · simp [splitOnFirstEq, hc] at h
      simp [hc, ← h.1, ← h.2]
    · simp [splitOnFirstEq, hc] at h
      match ha : splitOnFirstEq cs with
      | none => rw [ha] at h; simp at h
      | some (a2, b2) =>
        rw [ha] at h
        simp at h
        have := ih a2 b2 ha
        simp [← h.1, this, h.2]

theorem sha256_header_toList (digest : String) :
    ("sha256=" ++ digest).toList = "sha256".toList ++ '=' :: digest.toList := by
  show ("sha256=" ++ digest).data = "sha256".data ++ '=' :: digest.data
  rw [String.data_append]
  rfl

theorem sha256_append_beq_empty (rest : String) :
    (("sha256=" ++ rest) == "") = false := by
  refine beq_eq_false_iff_ne.mpr ?_
  intro hcontra
  have hd := congrArg String.data hcontra
  rw [String.data_append] at hd
  simp at hd

/-- Soundness of acceptance: `verify_signature` returns `True` only for the
header `"sha256=" ++ digest`. -/
theorem verify_signature_ok_true (digest : String) (header : Option String)
    (h : verify_signature digest header = .ok true) :
    header = some ("sha256=" ++ digest) := by
  match header with
  | none => simp [verify_signature] at h
  | some s =>
    simp only [verify_signature] at h
    split at h
    · exact absurd h (by simp)
    · split at h
      · exact absurd h (by simp)
      · next algo signature hsplit =>
        split at h
        · next halgo =>
          split at h
          · have hb : (signature == digest.toList) = true := Except.ok.inj h
            have hsig : signature = digest.toList := eq_of_beq hb
            have hdata2 : s.toList = "sha256".toList ++ '=' :: digest.toList := by
              rw [splitOnFirstEq_eq_some s.toList algo signature hsplit, halgo, hsig]
            have hs : s = "sha256=" ++ digest := by
              apply String.ext
              rw [show ("sha256=" ++ digest).data =
                    ("sha256=" ++ digest).toList from rfl,
                sha256_header_toList]
              exact hdata2
            simp [hs]
          · exact absurd h (by simp)
        · exact absurd h (by simp)

/-- Completeness of acceptance: the matching header is accepted whenever the
digest is ASCII — which `hexdigest()` output always is, so the hypothesis
holds in every run of the program. -/
theorem verify_signature_canonical (digest : String)
    (hd : digest.toList.all isAsciiChar = true) :
    verify_signature digest (some ("sha256=" ++ digest)) = .ok true := by
  simp only [verify_signature, sha256_append_beq_empty digest]
  rw [if_neg (by simp)]
  rw [sha256_header_toList, splitOnFirstEq_append "sha256".toList digest.toList (by decide)]
  simp only [hd]
  simp

/-! ## Theorems: the retrying HTTP sender -/

theorem sendLoop_calls_length {α : Type} (backoff : ℚ) (maxA : Nat)
    (f : Nat → Option α) (l : List Nat) :
    (sendLoop backoff maxA f l).calls.length ≤ l.length := by
  induction l with
  | nil => simp [sendLoop]
  | cons a rest ih =>
    simp only [sendLoop]
    cases hfa : f a with
    | some r => simp
    | none =>
      by_cases hlt : a < maxA
      · simp only [if_pos hlt, List.length_cons]
        exact Nat.succ_le_succ ih
      · simp only [if_neg hlt, List.length_cons]
        exact Nat.succ_le_succ ih

theorem sendLoop_all_fail {α : Type} (backoff : ℚ) (maxA : Nat)
    (f : Nat → Option α) (l : List Nat) (h : ∀ j ∈ l, f j = none) :
    sendLoop backoff maxA f l =
      ⟨none, l, (l.filter (fun a => decide (a < maxA))).map
        (fun a => backoff * a)⟩ := by
  induction l with
  | nil => simp [sendLoop]
  | cons a rest ih =>
    have ha : f a = none := h a (List.mem_cons_self a rest)
    have hrest : ∀ j ∈ rest, f j = none := fun j hj => h j (List.mem_cons_of_mem a hj)
    by_cases hlt : a < maxA
    · simp [sendLoop, ha, hlt, ih hrest]
    · simp [sendLoop, ha, hlt, ih hrest]

theorem sendLoop_first_success {α : Type} (backoff : ℚ) (maxA : Nat)
    (f : Nat → Option α) (l1 : List Nat) (k : Nat) (l2 : List Nat) (r : α)
    (h1 : ∀ j ∈ l1, f j = none) (hk : f k = some r) (hlt : ∀ j ∈ l1, j < maxA) :
    sendLoop backoff maxA f (l1 ++ k :: l2) =
      ⟨some r, l1 ++ [k], l1.map (fun a => backoff * a)⟩ := by
  induction l1 with
  | nil => simp [sendLoop, hk]
  | cons a rest ih =>
    have ha : f a = none := h1 a (List.mem_cons_self a rest)
    have haLt : a < maxA := hlt a (List.mem_cons_self a rest)
    have hrest : ∀ j ∈ rest, f j = none := fun j hj => h1 j (List.mem_cons_of_mem a hj)
    have hrestLt : ∀ j ∈ rest, j < maxA := fun j hj => hlt j (List.mem_cons_of_mem a hj)
    simp [sendLoop, ha, haLt, ih hrest hrestLt]

theorem range'_filter_lt (maxA : Nat) :
    (List.range' 1 maxA).filter (fun a => decide (a < maxA)) =
      List.range' 1 (maxA - 1) := by
  cases maxA with
  | zero => simp
  | succ m =>
    rw [List.range'_1_concat, List.filter_append]
    have h1 : (List.range' 1 m).filter (fun a => decide (a < m + 1)) =
        List.range' 1 m :=
      List.filter_eq_self.mpr (fun a ha => by
        have hm := List.mem_range'_1.mp ha
        simp only [decide_eq_true_eq]
        omega)
    have h2 : [1 + m].filter (fun a => decide (a < m + 1)) = [] := by
      have hd : decide (1 + m < m + 1) = false := decide_eq_false (by omega)
      simp [List.filter, hd]
    rw [h1, h2]
    simp

/-- C4: `_send_with_retries` invokes the request operation at most
`maxAttempts` times; when every attempt raises a transport error it sleeps
`backoff * attempt` after every non-final attempt and returns `none`; when
attempt `k` is the first that returns a response `r` (of any HTTP status),
it calls attempts `1..k` only, sleeps `backoff * attempt` after each of the
failed attempts `1..k-1`, and returns `r`. -/
theorem C4_send_with_retries_correct (α : Type) (maxA : Nat) (backoff : ℚ)
    (f : Nat → Option α) (k : Nat) (r : α) :
    (send_with_retries maxA backoff f).calls.length ≤ maxA ∧
    ((∀ j, 1 ≤ j → j ≤ maxA → f j = none) →
      send_with_retries maxA backoff f =
        ⟨none, List.range' 1 maxA,
          (List.range' 1 (maxA - 1)).map (fun a => backoff * a)⟩) ∧
    (1 ≤ k → k ≤ maxA → (∀ j, 1 ≤ j → j < k → f j = none) → f k = some r →
      send_with_retries maxA backoff f =
        ⟨some r, List.range' 1 k,
          (List.range' 1 (k - 1)).map (fun a => backoff * a)⟩) := by
  refine ⟨?_, ?_, ?_⟩
  · calc (send_with_retries maxA backoff f).calls.length
        ≤ (List.range' 1 maxA).length := sendLoop_calls_length backoff maxA f _
      _ = maxA := List.length_range' 1 1 maxA
  · intro hall
    rw [send_with_retries,
      sendLoop_all_fail backoff maxA f _ (fun j hj => by
        have hm := List.mem_range'_1.mp hj
        exact hall j hm.1 (by omega)),
      range'_filter_lt]
  · intro hk1 hkle hbefore hfk
    have hsplit : List.range' 1 maxA =
        List.range' 1 (k - 1) ++ k :: List.range' (k + 1) (maxA - k) := by
      have he : List.range' 1 (k - 1) ++ List.range' (1 + (k - 1)) (maxA - (k - 1)) =
          List.range' 1 ((maxA - (k - 1)) + (k - 1)) :=
        List.range'_append_1 1 (k - 1) (maxA - (k - 1))
      have h1k : 1 + (k - 1) = k := by omega
      have hmk : maxA - (k - 1) = (maxA - k) + 1 := by omega
      have htot : (maxA - (k - 1)) + (k - 1) = maxA := by omega
      rw [hmk] at htot
      rw [h1k, hmk, htot] at he
      rw [← he, List.range'_succ]
    rw [send_with_retries, hsplit,
      sendLoop_first_success backoff maxA f _ k _ r
        (fun j hj => by
          have hm := List.mem_range'_1.mp hj
          exact hbefore j hm.1 (by omega))
        hfk
        (fun j hj => by
          have hm := List.mem_range'_1.mp hj
          omega)]
    have hcat : List.range' 1 (k - 1) ++ [k] = List.range' 1 k := by
      have := List.range'_1_concat 1 (k - 1)
      rw [show (k - 1) + 1 = k by omega, show 1 + (k - 1) = k by omega] at this
      exact this.symm
    rw [hcat]

/-- C4 witness: with 3 allowed attempts and backoff base `1/2`, a factory
that raises on attempt 1 and returns on attempt 2 is called on attempts 1
and 2 and sleeps once for `1/2 * 1`; a factory that always raises is called
on attempts 1, 2, 3 and sleeps after attempts 1 and 2 only. -/
theorem C4_send_with_retries_correct_witness :
    send_with_retries 3 (1/2 : ℚ) (fun a => if a = 2 then some 7 else none) =
      ⟨some 7, List.range' 1 2, (List.range' 1 1).map (fun a => (1/2 : ℚ) * a)⟩ ∧
    send_with_retries 3 (1/2 : ℚ) (fun _ => (none : Option Nat)) =
      ⟨none, List.range' 1 3, (List.range' 1 2).map (fun a => (1/2 : ℚ) * a)⟩ :=
  ⟨(C4_send_with_retries_correct Nat 3 (1/2) (fun a => if a = 2 then some 7 else none)
      2 7).2.2 (by omega) (by omega) (fun j h1 h2 => by
        have hj : j = 1 := by omega
        subst hj
        rfl) rfl,
   (C4_send_with_retries_correct Nat 3 (1/2) (fun _ => none) 1 0).2.1
      (fun j h1 h2 => rfl)⟩

/-! ## Theorems: claims about the signature verifier -/

/-- C2 counterexample: `_verify_signature` is not total — a `sha256`-tagged
header whose signature segment contains a non-ASCII character (here
`"sha256=café"`, a digest different from the correct `"ab12"`, which the
claim says yields `false` without raising) makes `hmac.compare_digest` raise
an uncaught `TypeError` instead of returning `false`. -/
theorem C2_counterexample :
    verify_signature "ab12" (some "sha256=café") = .error () := rfl

/-- C2 (amended): `_verify_signature` fails closed on ASCII input and
accepts exactly the matching header: it returns `true` precisely for
`"sha256=" ++ digest`; an absent header, a separator-free header, a wrong
algorithm tag, and an ASCII signature segment different from the digest all
yield `false` without raising; but a `sha256`-tagged header whose signature
segment contains non-ASCII characters makes `hmac.compare_digest` raise an
uncaught `TypeError` (the call sits outside the `try/except ValueError`).
The digest is ASCII by hypothesis, as `hexdigest()` output always is. -/
theorem C2_verify_signature_fails_closed (digest : String)
    (hd : digest.toList.all isAsciiChar = true) :
    (∀ header, verify_signature digest header = .ok true ↔
      header = some ("sha256=" ++ digest)) ∧
    verify_signature digest none = .ok false ∧
    (∀ h, '=' ∉ h.toList → verify_signature digest (some h) = .ok false) ∧
    (∀ alg rest, '=' ∉ alg.toList → alg ≠ "sha256" →
      verify_signature digest (some (alg ++ "=" ++ rest)) = .ok false) ∧
    (∀ rest, rest.toList.all isAsciiChar = true → rest ≠ digest →
      verify_signature digest (some ("sha256=" ++ rest)) = .ok false) ∧
    (∀ rest, rest.toList.all isAsciiChar = false →
      verify_signature digest (some ("sha256=" ++ rest)) = .error ()) := by
  refine ⟨fun header => ⟨verify_signature_ok_true digest header,
    fun he => by rw [he]; exact verify_signature_canonical digest hd⟩,
    rfl, ?_, ?_, ?_, ?_⟩
  · intro h hno
    match hs : splitOnFirstEq h.toList with
    | some (a, b) =>
      refine absurd ?_ hno
      rw [splitOnFirstEq_eq_some h.toList a b hs]
      exact List.mem_append_right _ (List.mem_cons_self _ _)
    | none =>
      simp only [verify_signature, hs]
      split
      · rfl
      · rfl
  · intro alg rest halgNoEq hne
    have h1 : (alg ++ "=" ++ rest).toList = alg.toList ++ '=' :: rest.toList := by
      show (alg ++ "=" ++ rest).data = alg.data ++ '=' :: rest.data
      rw [String.data_append, String.data_append]
      rw [List.append_assoc]
      rfl
    have hne0 : ((alg ++ "=" ++ rest) == "") = false := by
      refine beq_eq_false_iff_ne.mpr ?_
      intro hcontra
      have hdd := congrArg String.data hcontra
      rw [String.data_append, String.data_append] at hdd
      simp at hdd
    have halgoNe : ¬ alg.toList = "sha256".toList := fun hEq => hne (String.ext hEq)
    simp only [verify_signature, hne0]
    rw [if_neg (by simp)]
    rw [h1, splitOnFirstEq_append alg.toList rest.toList halgNoEq]
    show (if alg.toList = "sha256".toList then
        if digest.toList.all isAsciiChar && rest.toList.all isAsciiChar then
          Except.ok (rest.toList == digest.toList)
        else Except.error ()
      else Except.ok false) = Except.ok false
    rw [if_neg halgoNe]
  · intro rest hra hneq
    have hbe : (rest.toList == digest.toList) = false := by
      refine beq_eq_false_iff_ne.mpr ?_
      intro hEq
      exact hneq (String.ext hEq)
    simp only [verify_signature, sha256_append_beq_empty rest]
    rw [if_neg (by simp)]
    rw [sha256_header_toList rest,
      splitOnFirstEq_append "sha256".toList rest.toList (by decide)]
    show (if "sha256".toList = "sha256".toList then
        if digest.toList.all isAsciiChar && rest.toList.all isAsciiChar then
          Except.ok (rest.toList == digest.toList)
        else Except.error ()
      else Except.ok false) = Except.ok false
    rw [if_pos rfl, hd, hra]
    rw [show (true && true) = true from rfl, if_pos rfl, hbe]
  · intro rest hra
    simp only [verify_signature, sha256_append_beq_empty rest]
    rw [if_neg (by simp)]
    rw [sha256_header_toList rest,
      splitOnFirstEq_append "sha256".toList rest.toList (by decide)]
    show (if "sha256".toList = "sha256".toList then
        if digest.toList.all isAsciiChar && rest.toList.all isAsciiChar then
          Except.ok (rest.toList == digest.toList)
        else Except.error ()
      else Except.ok false) = Except.error ()
    rw [if_pos rfl, hra, Bool.and_false]
    rw [if_neg (by simp)]

/-- C2 (amended) witness: the matching header verifies; absent,
separator-free, wrongly tagged, and ASCII-mismatching headers each return
`False`; a non-ASCII signature segment raises instead. -/
theorem C2_verify_signature_fails_closed_witness :
    verify_signature "ab12" (some "sha256=ab12") = .ok true ∧
    verify_signature "ab12" none = .ok false ∧
    verify_signature "ab12" (some "deadbeef") = .ok false ∧
    verify_signature "ab12" (some ("sha1" ++ "=" ++ "ab12")) = .ok false ∧
    verify_signature "ab12" (some ("sha256=" ++ "ffff")) = .ok false ∧
    verify_signature "ab12" (some ("sha256=" ++ "café")) = .error () :=
  ⟨((C2_verify_signature_fails_closed "ab12" (by decide)).1
      (some "sha256=ab12")).mpr rfl,
   (C2_verify_signature_fails_closed "ab12" (by decide)).2.1,
   (C2_verify_signature_fails_closed "ab12" (by decide)).2.2.1 "deadbeef"
     (by decide),
   (C2_verify_signature_fails_closed "ab12" (by decide)).2.2.2.1 "sha1" "ab12"
     (by decide) (by decide),
   (C2_verify_signature_fails_closed "ab12" (by decide)).2.2.2.2.1 "ffff"
     (by decide) (by decide),
   (C2_verify_signature_fails_closed "ab12" (by decide)).2.2.2.2.2 "café"
     (by decide)⟩

/-! ## Theorems: claims about the webhook handler's rejection paths -/

/-- C3 counterexample: a request whose header does not match the body's
HMAC — here `"sha256=café"` against digest `"ab12"` — is not rejected with
401: the `TypeError` from `hmac.compare_digest` escapes the handler and the
platform answers 500. (No side effects occur on this path either.) -/
theorem C3_counterexample :
    (some "sha256=café" : Option String) ≠ some ("sha256=" ++ "ab12") ∧
    github_webhook "ab12" (some "sha256=café") (some "issues")
      (.ok (.obj [("action", .str "opened")])) "GROBimbo" (fun _ => "T") =
      (.pyError, []) :=
  ⟨by decide, rfl⟩

/-- C3 (amended): a request whose `X-Hub-Signature-256` header does not
match the body's HMAC is never processed and produces no side effects (no
prompt generation, no comment post, no notification), regardless of JSON
validity: whenever `_verify_signature` returns (necessarily `False` on a
mismatch) the response is HTTP 401; when its `hmac.compare_digest` raises on
a non-ASCII signature segment, the exception escapes the handler instead
(HTTP 500). -/
theorem C3_invalid_signature_rejected (digest : String)
    (sigHeader eventHeader : Option String) (parsed : ParseResult)
    (watchUser : String) (gen : Json → String)
    (hmismatch : sigHeader ≠ some ("sha256=" ++ digest)) :
    ((∃ b, verify_signature digest sigHeader = .ok b) →
      github_webhook digest sigHeader eventHeader parsed watchUser gen =
        (.httpError 401 "Invalid signature", [])) ∧
    (verify_signature digest sigHeader = .error () →
      github_webhook digest sigHeader eventHeader parsed watchUser gen =
        (.pyError, [])) := by
  constructor
  · rintro ⟨b, hb⟩
    cases b with
    | true => exact absurd (verify_signature_ok_true digest sigHeader hb) hmismatch
    | false => simp [github_webhook, hb]
  · intro he
    simp [github_webhook, he]

/-- C3 (amended) witness: an ASCII mismatching header gets 401 with no
effects; a non-ASCII one makes the handler escape, also with no effects —
both on a valid-JSON body. -/
theorem C3_invalid_signature_rejected_witness :
    github_webhook "ab12" (some "sha256=deadbeef") (some "issues")
      (.ok (.obj [("action", .str "opened")])) "GROBimbo" (fun _ => "T") =
      (.httpError 401 "Invalid signature", []) ∧
    github_webhook "ab12" (some "sha256=café") (some "issues")
      (.ok (.obj [("action", .str "opened")])) "GROBimbo" (fun _ => "T") =
      (.pyError, []) :=
  ⟨(C3_invalid_signature_rejected "ab12" (some "sha256=deadbeef") (some "issues")
      (.ok (.obj [("action", .str "opened")])) "GROBimbo" (fun _ => "T")
      (by decide)).1 ⟨false, rfl⟩,
   (C3_invalid_signature_rejected "ab12" (some "sha256=café") (some "issues")
      (.ok (.obj [("action", .str "opened")])) "GROBimbo" (fun _ => "T")
      (by decide)).2 rfl⟩

/-- C8 counterexample: a correctly signed body that is not valid UTF-8 makes
`json.loads` raise `UnicodeDecodeError`, which `except json.JSONDecodeError`
does not catch: the handler escapes (HTTP 500) instead of answering the
claimed 400 — even though the body is not valid JSON and the signature
verifies. -/
theorem C8_counterexample :
    verify_signature "ab12" (some "sha256=ab12") = .ok true ∧
    github_webhook "ab12" (some "sha256=ab12") (some "issues") .unicodeError
      "GROBimbo" (fun _ => "T") = (.pyError, []) :=
  ⟨rfl, rfl⟩

/-- C8 (amended): for every request whose signature verifies, a body that
decodes as UTF-8 but is not valid JSON (`json.JSONDecodeError`, caught) is
answered with HTTP 400 and no side effects occur; a body that is not valid
UTF-8 (`UnicodeDecodeError`, uncaught) makes the handler escape instead —
also with no side effects. -/
theorem C8_invalid_json_400 (digest : String)
    (sigHeader eventHeader : Option String) (watchUser : String)
    (gen : Json → String)
    (hsig : verify_signature digest sigHeader = .ok true) :
    github_webhook digest sigHeader eventHeader .jsonError watchUser gen =
      (.httpError 400 "Invalid JSON payload", []) ∧
    github_webhook digest sigHeader eventHeader .unicodeError watchUser gen =
      (.pyError, []) := by
  constructor
  · simp [github_webhook, hsig]
  · simp [github_webhook, hsig]

/-- C8 (amended) witness: verified signature; a JSON-decode failure yields
400, a Unicode-decode failure escapes — no effects in either case. -/
theorem C8_invalid_json_400_witness :
    github_webhook "ab12" (some "sha256=ab12") (some "issues") .jsonError
      "GROBimbo" (fun _ => "T") =
      (.httpError 400 "Invalid JSON payload", []) ∧
    github_webhook "ab12" (some "sha256=ab12") (some "issues") .unicodeError
      "GROBimbo" (fun _ => "T") = (.pyError, []) :=
  ⟨(C8_invalid_json_400 "ab12" (some "sha256=ab12") (some "issues") "GROBimbo"
      (fun _ => "T") rfl).1,
   (C8_invalid_json_400 "ab12" (some "sha256=ab12") (some "issues") "GROBimbo"
      (fun _ => "T") rfl).2⟩

/-! ## Theorems: the prompt generator -/

/-- C6: `generate_codex_prompt` is total: it returns either the fixed
placeholder or the backend's output trimmed of surrounding whitespace; a
missing client or a raising backend always yields the placeholder, and an
available client with a returning backend always yields the trimmed output
(totality — "never raises to its caller" — holds by construction: the model
is a total function, mirroring the source's bare `except` clause). -/
theorem C6_generate_codex_prompt_total (clientAvailable : Bool)
    (backend : String → Except Unit String) (issue_text : String) :
    (generate_codex_prompt clientAvailable backend issue_text =
        "⚠️ Failed to generate Codex prompt." ∨
      ∃ s, backend issue_text = .ok s ∧
        generate_codex_prompt clientAvailable backend issue_text = pyStrip s) ∧
    (clientAvailable = false →
      generate_codex_prompt clientAvailable backend issue_text =
        "⚠️ Failed to generate Codex prompt.") ∧
    (∀ e, backend issue_text = .error e →
      generate_codex_prompt clientAvailable backend issue_text =
        "⚠️ Failed to generate Codex prompt.") ∧
    (∀ s, clientAvailable = true → backend issue_text = .ok s →
      generate_codex_prompt clientAvailable backend issue_text = pyStrip s) := by
  cases clientAvailable with
  | false =>
    exact ⟨Or.inl rfl, fun _ => rfl, fun e _ => rfl, fun s hc _ => by cases hc⟩
  | true =>
    cases hb : backend issue_text with
    | error e =>
      refine ⟨Or.inl ?_, ?_, ?_, ?_⟩
      · simp [generate_codex_prompt, hb, codexFallback]
      · intro hc
        cases hc
      · intro e2 _
        simp [generate_codex_prompt, hb, codexFallback]
      · intro s2 _ hs2
        cases hs2
    | ok s =>
      refine ⟨Or.inr ⟨s, rfl, ?_⟩, ?_, ?_, ?_⟩
      · simp [generate_codex_prompt, hb]
      · intro hc
        cases hc
      · intro e2 he
        cases he
      · intro s2 _ hs2
        cases hs2
        simp [generate_codex_prompt, hb]

/-- C6 witness: a failing backend yields the placeholder, a succeeding one
the trimmed text. -/
theorem C6_generate_codex_prompt_total_witness :
    generate_codex_prompt true (fun _ => .error ()) "msg" =
      "⚠️ Failed to generate Codex prompt." ∧
    generate_codex_prompt false (fun _ => .ok "out") "msg" =
      "⚠️ Failed to generate Codex prompt." ∧
    generate_codex_prompt true (fun _ => .ok "  out \n") "msg" = pyStrip "  out \n" :=
  ⟨(C6_generate_codex_prompt_total true (fun _ => .error ()) "msg").2.2.1 () rfl,
   (C6_generate_codex_prompt_total false (fun _ => .ok "out") "msg").2.1 rfl,
   (C6_generate_codex_prompt_total true (fun _ => .ok "  out \n") "msg").2.2.2
     "  out \n" rfl rfl⟩

/-! ## Theorems: the comment publisher -/

/-- C5: in `post_github_comment`, the comment request is always the first
action, and `notify_pushover` is invoked exactly when the retried request
returned a response with status 200 or 201 — a transport failure
(`None` result), a non-ok response, or an ok response outside {200, 201}
never notifies. -/
theorem C5_notify_iff_success (maxA : Nat) (backoff : ℚ)
    (f : Nat → Option HttpResponse) (n t : Json) (b : String) :
    (post_github_comment maxA backoff f n t b).head? =
      some (.commentRequest n b) ∧
    (PostAction.notify t n ("✅ Comment posted to issue #" ++ pyStr n) ∈
        post_github_comment maxA backoff f n t b ↔
      ∃ resp, (send_with_retries maxA backoff f).result = some resp ∧
        (resp.status_code = 200 ∨ resp.status_code = 201)) := by
  unfold post_github_comment
  cases hres : (send_with_retries maxA backoff f).result with
  | none =>
    refine ⟨rfl, ?_, ?_⟩
    · intro hmem
      simp at hmem
    · rintro ⟨resp, hr, _⟩
      cases hr
  | some resp =>
    cases hok : resp.ok with
    | false =>
      have hge : ¬ resp.status_code < 400 := by
        simpa [HttpResponse.ok] using hok
      refine ⟨by simp [hok], ?_, ?_⟩
      · intro hmem
        simp [hok] at hmem
      · rintro ⟨resp2, hr2, hstat⟩
        have he : resp = resp2 := Option.some.inj hr2
        subst he
        rcases hstat with h | h <;> omega
    | true =>
      by_cases hst : resp.status_code ∈ [200, 201]
      · refine ⟨by simp [hok, hst], ?_, ?_⟩
        · intro _
          exact ⟨resp, rfl, by simpa using hst⟩
        · intro _
          simp [hok, hst]
      · refine ⟨by simp [hok, hst], ?_, ?_⟩
        · intro hmem
          simp [hok, hst] at hmem
        · rintro ⟨resp2, hr2, hstat⟩
          have he : resp = resp2 := Option.some.inj hr2
          subst he
          exact absurd (by simpa using hstat) hst

/-- C5 witness: a 201 response notifies (with the comment request first); a
404 response never does. -/
theorem C5_notify_iff_success_witness :
    (post_github_comment 3 (1/2 : ℚ) (fun _ => some ⟨201, "created"⟩)
        (.num 8) (.str "Deck stats") "hello").head? =
      some (.commentRequest (.num 8) "hello") ∧
    PostAction.notify (.str "Deck stats") (.num 8)
        ("✅ Comment posted to issue #" ++ pyStr (.num 8)) ∈
      post_github_comment 3 (1/2 : ℚ) (fun _ => some ⟨201, "created"⟩)
        (.num 8) (.str "Deck stats") "hello" ∧
    ¬ PostAction.notify (.str "Deck stats") (.num 8)
        ("✅ Comment posted to issue #" ++ pyStr (.num 8)) ∈
      post_github_comment 3 (1/2 : ℚ) (fun _ => some ⟨404, "missing"⟩)
        (.num 8) (.str "Deck stats") "hello" :=
  ⟨(C5_notify_iff_success 3 (1/2) (fun _ => some ⟨201, "created"⟩)
      (.num 8) (.str "Deck stats") "hello").1,
   (C5_notify_iff_success 3 (1/2) (fun _ => some ⟨201, "created"⟩)
      (.num 8) (.str "Deck stats") "hello").2.mpr
      ⟨⟨201, "created"⟩, rfl, Or.inr rfl⟩,
   fun hmem =>
     by rcases (C5_notify_iff_success 3 (1/2) (fun _ => some ⟨404, "missing"⟩)
          (.num 8) (.str "Deck stats") "hello").2.mp hmem with ⟨resp, hr, hstat⟩
        cases Option.some.inj hr
        rcases hstat with h | h <;> simp at h⟩

/-! ## Theorems: the webhook processing path -/

theorem extractFields_mkPayload (action : Json) (login : String) (number : Json)
    (title body : String) (comment : Option String) :
    extractFields (mkPayload action login number title body comment) =
      .ok ⟨.str login, number, .str title, .str body, commentField comment⟩ := by
  cases comment <;> rfl

theorem github_webhook_processed (digest : String) (eventHeader : Option String)
    (payload : Json) (watchUser : String) (gen : Json → String)
    (fields : ExtractedFields)
    (hd : digest.toList.all isAsciiChar = true)
    (hev : (eventHeader.getD "ping") ∈ acceptedEvents)
    (hex : extractFields payload = .ok fields)
    (hsend : jsonEqString fields.sender watchUser = true) :
    github_webhook digest (some ("sha256=" ++ digest)) eventHeader (.ok payload)
        watchUser gen =
      (.response "processed",
        [.genPrompt (selectText fields),
         .postComment fields.issue_number fields.issue_title
           (commentBanner (gen (selectText fields)))]) := by
  have hv : verify_signature digest (some ("sha256=" ++ digest)) = .ok true :=
    verify_signature_canonical digest hd
  simp [github_webhook, hv, hev, hex, hsend]

/-- C1 counterexample: a run in which the signature verifies, the sender is
the watched user, the event type is `issues` but the action is `"labeled"`
(not the new-issue action `"opened"`), and the outbound comment write
(`post_github_comment` call) still happens — refuting the claim that no
write happens unless the event/action pair is in the accepted set. -/
theorem C1_counterexample :
    dictGet (mkPayload (.str "labeled") "GROBimbo" (.num 8) "Deck stats"
        "Please add stats" none) "action" .null = .ok (.str "labeled") ∧
    (github_webhook "d" (some "sha256=d") (some "issues")
        (.ok (mkPayload (.str "labeled") "GROBimbo" (.num 8) "Deck stats"
          "Please add stats" none))
        "GROBimbo" (fun _ => "T")).2 =
      [.genPrompt (.str "Deck stats\n\nPlease add stats"),
       .postComment (.num 8) (.str "Deck stats") (commentBanner "T")] :=
  ⟨rfl, rfl⟩

/-- C1 (amended): no outbound comment write happens unless the inbound
signature verified, the sender login equals the watched user, and the event
type is in {`issues`, `issue_comment`} — the code applies no action-level
filtering, so the action conjunct of the original claim does not hold. -/
theorem C1_no_write_without_auth (digest : String)
    (sigHeader eventHeader : Option String) (parsed : ParseResult)
    (watchUser : String) (gen : Json → String) (n t : Json) (b : String)
    (hmem : Effect.postComment n t b ∈
      (github_webhook digest sigHeader eventHeader parsed watchUser gen).2) :
    sigHeader = some ("sha256=" ++ digest) ∧
    (eventHeader.getD "ping") ∈ acceptedEvents ∧
    ∃ payload fields, parsed = .ok payload ∧
      extractFields payload = .ok fields ∧
      jsonEqString fields.sender watchUser = true := by
  cases hv : verify_signature digest sigHeader with
  | error u => simp [github_webhook, hv] at hmem
  | ok verified =>
    cases verified with
    | false => simp [github_webhook, hv] at hmem
    | true =>
      refine ⟨verify_signature_ok_true digest sigHeader hv, ?_⟩
      match parsed with
      | .jsonError => simp [github_webhook, hv] at hmem
      | .unicodeError => simp [github_webhook, hv] at hmem
      | .ok payload =>
        by_cases hev : (eventHeader.getD "ping") ∈ acceptedEvents
        · refine ⟨hev, ?_⟩
          cases hex : extractFields payload with
          | error e => simp [github_webhook, hv, hev, hex] at hmem
          | ok fields =>
            by_cases hsend : jsonEqString fields.sender watchUser = false
            · simp [github_webhook, hv, hev, hex, hsend] at hmem
            · have hst : jsonEqString fields.sender watchUser = true := by
                cases hb : jsonEqString fields.sender watchUser with
                | false => exact absurd hb hsend
                | true => rfl
              exact ⟨payload, fields, rfl, hex, hst⟩
        · simp [github_webhook, hv, hev] at hmem

/-- C1 (amended) witness: a processed run in which the comment write occurs
and the three amended conditions are observed to hold. -/
theorem C1_no_write_without_auth_witness :
    (some "sha256=d" : Option String) = some ("sha256=" ++ "d") ∧
    ((some "issues" : Option String).getD "ping") ∈ acceptedEvents ∧
    ∃ payload fields,
      ParseResult.ok (mkPayload (.str "opened") "GROBimbo" (.num 8) "Deck stats"
        "Please add stats" none) = .ok payload ∧
      extractFields payload = .ok fields ∧
      jsonEqString fields.sender "GROBimbo" = true :=
  C1_no_write_without_auth "d" (some "sha256=d") (some "issues")
    (.ok (mkPayload (.str "opened") "GROBimbo" (.num 8) "Deck stats"
      "Please add stats" none))
    "GROBimbo" (fun _ => "T") (.num 8) (.str "Deck stats") (commentBanner "T")
    (List.Mem.tail _ (List.Mem.head _))

/-- C7: text-source selection — when the payload carries a non-empty comment
body, the prompt generator receives exactly that comment body; when the
comment is absent, or present but empty, it receives the issue title and
body joined by a blank line. (Stated for payloads whose relevant fields are
strings, the shape GitHub sends.) -/
theorem C7_text_source_selection (digest watchUser title body c : String)
    (action number : Json) (eventHeader : Option String) (gen : Json → String)
    (hd : digest.toList.all isAsciiChar = true)
    (hev : (eventHeader.getD "ping") ∈ acceptedEvents) :
    (c ≠ "" →
      (github_webhook digest (some ("sha256=" ++ digest)) eventHeader
          (.ok (mkPayload action watchUser number title body (some c)))
          watchUser gen).2.head? = some (.genPrompt (.str c))) ∧
    ((github_webhook digest (some ("sha256=" ++ digest)) eventHeader
        (.ok (mkPayload action watchUser number title body none))
        watchUser gen).2.head? =
      some (.genPrompt (.str (title ++ "\n\n" ++ body)))) ∧
    ((github_webhook digest (some ("sha256=" ++ digest)) eventHeader
        (.ok (mkPayload action watchUser number title body (some "")))
        watchUser gen).2.head? =
      some (.genPrompt (.str (title ++ "\n\n" ++ body)))) := by
  have hsend : jsonEqString (Json.str watchUser) watchUser = true := by
    simp [jsonEqString]
  refine ⟨?_, ?_, ?_⟩
  · intro hc
    rw [github_webhook_processed digest eventHeader _ watchUser gen
      ⟨.str watchUser, number, .str title, .str body, .str c⟩ hd hev
      (extractFields_mkPayload action watchUser number title body (some c)) hsend]
    simp [selectText, pyTruthy, hc]
  · rw [github_webhook_processed digest eventHeader _ watchUser gen
      ⟨.str watchUser, number, .str title, .str body, .null⟩ hd hev
      (extractFields_mkPayload action watchUser number title body none) hsend]
    simp [selectText, pyTruthy, pyStr]
  · rw [github_webhook_processed digest eventHeader _ watchUser gen
      ⟨.str watchUser, number, .str title, .str body, .str ""⟩ hd hev
      (extractFields_mkPayload action watchUser number title body (some "")) hsend]
    simp [selectText, pyTruthy, pyStr]

/-- C7 witness: with comment body `"X"` present the generator receives
`"X"`; with no comment it receives `"Deck stats\n\nPlease add stats"`. -/
theorem C7_text_source_selection_witness :
    (github_webhook "d" (some ("sha256=" ++ "d")) (some "issue_comment")
        (.ok (mkPayload (.str "created") "GROBimbo" (.num 8) "Deck stats"
          "Please add stats" (some "X")))
        "GROBimbo" (fun _ => "T")).2.head? = some (.genPrompt (.str "X")) ∧
    (github_webhook "d" (some ("sha256=" ++ "d")) (some "issue_comment")
        (.ok (mkPayload (.str "created") "GROBimbo" (.num 8) "Deck stats"
          "Please add stats" none))
        "GROBimbo" (fun _ => "T")).2.head? =
      some (.genPrompt (.str ("Deck stats" ++ "\n\n" ++ "Please add stats"))) :=
  ⟨(C7_text_source_selection "d" "GROBimbo" "Deck stats" "Please add stats" "X"
      (.str "created") (.num 8) (some "issue_comment") (fun _ => "T")
      (by decide) (by decide)).1 (by decide),
   (C7_text_source_selection "d" "GROBimbo" "Deck stats" "Please add stats" "X"
      (.str "created") (.num 8) (some "issue_comment") (fun _ => "T")
      (by decide) (by decide)).2.1⟩

theorem lookup_dict_of_shape (fields : List (String × Json)) (key : String)
    (h : fieldIsDictWhenPresent fields key = true) :
    ∃ sf, (fields.lookup key).getD (.obj []) = .obj sf := by
  unfold fieldIsDictWhenPresent at h
  cases hl : fields.lookup key with
  | none => exact ⟨[], rfl⟩
  | some v =>
    rw [hl] at h
    cases v with
    | obj sf => exact ⟨sf, rfl⟩
    | null => simp at h
    | bool b => simp at h
    | num n => simp at h
    | str s => simp at h
    | arr elems => simp at h

/-- C9 counterexample: a verified request with valid JSON and an accepted
event type on which extraction does fail — the payload's `"sender"` value is
a number, so `payload.get("sender", {}).get("login", "")` raises
`AttributeError` and the handler escapes with an exception instead of
proceeding. -/
theorem C9_counterexample :
    verify_signature "d" (some "sha256=d") = .ok true ∧
    extractFields (.obj [("sender", .num 1)]) = .error () ∧
    github_webhook "d" (some "sha256=d") (some "issues")
      (.ok (.obj [("sender", .num 1)])) "GROBimbo" (fun _ => "T") =
      (.pyError, []) :=
  ⟨rfl, rfl, rfl⟩

/-- C9 (amended): for every verified request with valid JSON and accepted
event type whose payload is a JSON object and whose `"sender"`, `"issue"`
and `"comment"` members — when present — are objects, extraction never
fails; when those members are absent the extracted values are the empty
defaults (`""` login, `None` number, `""` title, `""` body, `None` comment),
and the handler proceeds past extraction (it never escapes with the
`AttributeError` a non-dict member access would raise). -/
theorem C9_extraction_total_on_dict_payloads (digest : String)
    (eventHeader : Option String) (watchUser : String) (gen : Json → String)
    (fields : List (String × Json))
    (hd : digest.toList.all isAsciiChar = true)
    (hev : (eventHeader.getD "ping") ∈ acceptedEvents)
    (hs : fieldIsDictWhenPresent fields "sender" = true)
    (hi : fieldIsDictWhenPresent fields "issue" = true)
    (hc : fieldIsDictWhenPresent fields "comment" = true) :
    (∃ ef, extractFields (.obj fields) = .ok ef) ∧
    (fields.lookup "sender" = none → fields.lookup "issue" = none →
      fields.lookup "comment" = none →
      extractFields (.obj fields) = .ok ⟨.str "", .null, .str "", .str "", .null⟩) ∧
    (github_webhook digest (some ("sha256=" ++ digest)) eventHeader
        (.ok (.obj fields)) watchUser gen).1 ≠ .pyError := by
  obtain ⟨sf, hsf⟩ := lookup_dict_of_shape fields "sender" hs
  obtain ⟨isf, hisf⟩ := lookup_dict_of_shape fields "issue" hi
  obtain ⟨cf, hcf⟩ := lookup_dict_of_shape fields "comment" hc
  have hex : extractFields (.obj fields) =
      .ok ⟨(sf.lookup "login").getD (.str ""), (isf.lookup "number").getD .null,
        (isf.lookup "title").getD (.str ""), (isf.lookup "body").getD (.str ""),
        (cf.lookup "body").getD .null⟩ := by
    simp only [extractFields, dictGet, hsf, hisf, hcf]
    rfl
  refine ⟨⟨_, hex⟩, ?_, ?_⟩
  · intro h1 h2 h3
    simp only [extractFields, dictGet, h1, h2, h3]
    rfl
  · have hv : verify_signature digest (some ("sha256=" ++ digest)) = .ok true :=
      verify_signature_canonical digest hd
    simp only [github_webhook, hv]
    rw [if_neg (by simp)]
    rw [if_neg (by simp [hev])]
    rw [hex]
    split
    next heq => exact Except.noConfusion heq
    next flds heq =>
      split
      · simp
      · simp

/-- C9 (amended) witness: the empty-object payload — every field missing —
extracts the empty defaults and the handler proceeds to `ignored` or
`processed` instead of failing. -/
theorem C9_extraction_total_on_dict_payloads_witness :
    (∃ ef, extractFields (.obj []) = .ok ef) ∧
    (extractFields (.obj []) = .ok ⟨.str "", .null, .str "", .str "", .null⟩) ∧
    (github_webhook "d" (some ("sha256=" ++ "d")) (some "issues")
        (.ok (.obj [])) "GROBimbo" (fun _ => "T")).1 ≠ .pyError := by
  have h := C9_extraction_total_on_dict_payloads "d" (some "issues") "GROBimbo"
    (fun _ => "T") [] (by decide) (by decide) rfl rfl rfl
  exact ⟨h.1, h.2.1 rfl rfl rfl, h.2.2⟩

/-- C10: the handler applies no action-level filtering — for every verified,
well-formed payload whose sender is the watched user and whose event type is
accepted, whatever the `"action"` value (including `"labeled"` and
`"edited"`), the handler generates a prompt, calls `post_github_comment`,
and responds 200 `{"msg": "processed"}`. -/
theorem C10_no_action_filtering (digest watchUser title body : String)
    (action number : Json) (comment : Option String)
    (eventHeader : Option String) (gen : Json → String)
    (hd : digest.toList.all isAsciiChar = true)
    (hev : (eventHeader.getD "ping") ∈ acceptedEvents) :
    github_webhook digest (some ("sha256=" ++ digest)) eventHeader
        (.ok (mkPayload action watchUser number title body comment))
        watchUser gen =
      (.response "processed",
        [.genPrompt (selectText ⟨.str watchUser, number, .str title, .str body,
            commentField comment⟩),
         .postComment number (.str title)
           (commentBanner (gen (selectText ⟨.str watchUser, number, .str title,
             .str body, commentField comment⟩)))]) := by
  rw [github_webhook_processed digest eventHeader _ watchUser gen
    ⟨.str watchUser, number, .str title, .str body, commentField comment⟩ hd hev
    (extractFields_mkPayload action watchUser number title body comment)
    (by simp [jsonEqString])]

/-- C10 witness: the event/action pair (`issues`, `labeled`) — outside the
"new issue"/"new comment" set — is still fully processed. -/
theorem C10_no_action_filtering_witness :
    github_webhook "d" (some ("sha256=" ++ "d")) (some "issues")
        (.ok (mkPayload (.str "labeled") "GROBimbo" (.num 8) "Deck stats"
          "Please add stats" none)) "GROBimbo" (fun _ => "T") =
      (.response "processed",
        [.genPrompt (selectText ⟨.str "GROBimbo", .num 8, .str "Deck stats",
            .str "Please add stats", commentField none⟩),
         .postComment (.num 8) (.str "Deck stats") (commentBanner "T")]) :=
  C10_no_action_filtering "d" "GROBimbo" "Deck stats" "Please add stats"
    (.str "labeled") (.num 8) none (some "issues") (fun _ => "T") (by decide)
    (by decide)
